import Mathlib

/-!
Verification of the background job orchestration engine of the kfilter
repository (backend analysis pipeline).

The definitions below are a shallow embedding of the Python sources:

* `src/backend/utils.py` (task registries, `update_task_progress`,
  `handle_task_error`, `update_concept_task_progress`),
* `src/backend/models.py` (`Task`, `TaskStatus`, `ConceptTask`, `TaskResult`),
* `src/backend/data_management/services.py` (`create_analysis_task`,
  `run_analysis_wrapper`),
* `src/backend/data_management/analysis_task_runner.py` (the pipeline stages
  and `run_analysis_task`),
* `src/backend/market_data/data_fetcher.py` (`compute_factors`, progress
  reporting only),
* `src/backend/api.py` (`stop_analysis`, `get_latest_results`,
  `run_extended_analysis_stream`, `stop_extended_analysis`).

External collaborators (network fetches, the SQL database, the factor
computation itself) are modelled as oracle inputs in an `Env` structure: the
engine only observes their success/failure and the produced payload, which is
exactly what the oracles supply.  Progress values are modelled as exact
rationals (the Python floats 0.02, 0.25, ... are exactly representable and no
claim depends on rounding).  Each mutation of the job record is additionally
recorded in a ghost `snaps` trace so that trace properties (progress
monotonicity, status/progress invariants) can be stated.
-/

namespace KFilter

set_option maxRecDepth 4000

/-- `models.TaskStatus` (string enum in the source). -/
inductive TaskStatus where
  | pending
  | running
  | completed
  | failed
  | cancelled
deriving DecidableEq, Repr

/-- `TaskStatus.value` of the Python string enum. -/
def TaskStatus.value : TaskStatus → String
  | .pending => "pending"
  | .running => "running"
  | .completed => "completed"
  | .failed => "failed"
  | .cancelled => "cancelled"

/-- One row of the result payload (`df.to_dict(orient="records")`), modelled
as a key/value record. -/
abbrev DataRec := List (String × String)

/-- The `result` dict produced by `compute_factors_and_analysis`:
`{"data": data, "count": len(data)}`. -/
structure ResultPayload where
  data : List DataRec
  count : Nat
deriving DecidableEq, Repr

/-- `models.Task` (pydantic model; in-memory job record). -/
structure Task where
  task_id : String
  status : TaskStatus
  progress : ℚ
  message : String
  created_at : String
  completed_at : Option String := none
  top_n : Nat
  selected_factors : Option (List String) := none
  result : Option ResultPayload := none
  error : Option String := none
deriving DecidableEq, Repr

/-- `models.ConceptTask` result dict (`concepts_count` / `stocks_count`). -/
structure ConceptResult where
  concepts_count : Nat
  stocks_count : Nat
deriving DecidableEq, Repr

/-- `models.ConceptTask` (pydantic model; concept-collection job record). -/
structure ConceptTask where
  task_id : String
  status : TaskStatus
  progress : ℚ
  message : String
  created_at : String
  completed_at : Option String := none
  result : Option ConceptResult := none
  error : Option String := none
deriving DecidableEq, Repr

/-- Python `dict.get`: the registries (`TASKS`, `CONCEPT_TASKS`,
`TASK_STOP_EVENTS`, ...) are insertion-ordered string-keyed dicts, modelled as
association lists. -/
def getT {α : Type} (m : List (String × α)) (k : String) : Option α :=
  match m with
  | [] => none
  | (k₂, v) :: rest => if k₂ = k then some v else getT rest k

/-- Python `dict[k] = v`: overwrite in place if the key exists, otherwise
append (Python dicts preserve insertion order, new keys go last). -/
def setT {α : Type} (m : List (String × α)) (k : String) (v : α) :
    List (String × α) :=
  match m with
  | [] => [(k, v)]
  | (k₂, v₂) :: rest => if k₂ = k then (k₂, v) :: rest else (k₂, v₂) :: setT rest k v

theorem getT_setT_self {α : Type} (m : List (String × α)) (k : String) (v : α) :
    getT (setT m k v) k = some v := by
  induction m with
  | nil => simp [getT, setT]
  | cons hd tl ih =>
    obtain ⟨k₂, v₂⟩ := hd
    by_cases h : k₂ = k <;> simp [getT, setT, h, ih]

/-- `utils.update_task_progress`: update progress/message when the id is
present in `TASKS`, otherwise do nothing. -/
def update_task_progress (tasks : List (String × Task)) (task_id : String)
    (progress : ℚ) (message : String) : List (String × Task) :=
  match getT tasks task_id with
  | none => tasks
  | some t => setT tasks task_id { t with progress := progress, message := message }

/-- `utils.update_concept_task_progress`: same shape over `CONCEPT_TASKS`. -/
def update_concept_task_progress (tasks : List (String × ConceptTask))
    (task_id : String) (progress : ℚ) (message : String) :
    List (String × ConceptTask) :=
  match getT tasks task_id with
  | none => tasks
  | some t => setT tasks task_id { t with progress := progress, message := message }

/-- Outcome of one `fetch_history([stock_code], ...)` call inside the batch
stage: a non-empty dataframe, an empty result, or a raised exception. -/
inductive ItemOutcome where
  | ok
  | empty
  | exn
deriving DecidableEq, Repr

/-- Oracle inputs for one analysis job: the observable behaviour of all
external collaborators and submission parameters.  `stop` gives the value of
`stop_event.is_set()` at the n-th read (reads happen at stage boundaries and
at batch-item boundaries). -/
structure Env where
  /-- `get_latest_trade_date_and_limit_map` raises with this message, or
  succeeds (`none`). -/
  setupErr : Option String
  /-- `collect_latest_data` submission parameter. -/
  collectLatestData : Bool
  /-- codes from `fetch_hot_spot` (`spot["代码"].tolist()`). -/
  hotCodes : List String
  /-- codes from `fetch_dragon_tiger_data`. -/
  dragonCodes : List String
  /-- outcome of the DB checks in `check_and_upsert_spot_data`. -/
  shouldUpsert : Bool
  /-- `get_stocks_from_database`: stock codes, or the raised exception text. -/
  dbStocks : Except String (List String)
  /-- outcome of `fetch_history` for the i-th stock of the batch stage. -/
  fetchOutcome : Nat → ItemOutcome
  /-- the rows produced by `compute_factors` after cleaning
  (`df.to_dict(orient="records")`). -/
  factorData : List DataRec
  /-- `selected_factors` submission parameter. -/
  selectedFactors : Option (List String)
  /-- `top_n` submission parameter. -/
  topN : Nat
  /-- `datetime.now().isoformat()`. -/
  now : String
  /-- `latest_trade_date` rendered into progress messages. -/
  dateStr : String
  /-- value of the n-th `stop_event.is_set()` read. -/
  stop : Nat → Bool

/-- The `full_result` dict assembled in `complete_analysis_task` (also the
content of `ranking.json` and of `ANALYSIS_RESULTS_CACHE[task_id]`). -/
structure FullResult where
  task_id : String
  status : String
  progress : ℚ
  message : String
  completed_at : Option String
  created_at : String
  top_n : Nat
  selected_factors : Option (List String)
  data : List DataRec
  count : Nat
  from_cache : Bool
deriving DecidableEq, Repr

/-- Process state touched by one analysis job: the `TASKS` registry,
`LAST_COMPLETED_TASK`, `ANALYSIS_RESULTS_CACHE`, the `ranking.json` file.
`snaps` is a ghost trace recording the job record after every mutation, and
`checks` counts `stop_event.is_set()` reads (to index the `stop` oracle). -/
structure RunSt where
  tasks : List (String × Task)
  lastCompleted : Option Task := none
  cache : List (String × FullResult) := []
  rankingFile : Option FullResult := none
  snaps : List Task := []
  checks : Nat := 0
deriving DecidableEq, Repr

/-- Write the job record (attribute assignments on the shared `Task` object)
and record the new value in the ghost trace. -/
def writeRec (id : String) (t : Task) (s : RunSt) : RunSt :=
  { s with tasks := setT s.tasks id t, snaps := s.snaps ++ [t] }

/-- `update_task_progress` lifted to `RunSt`, recording the ghost snapshot. -/
def updP (id : String) (p : ℚ) (msg : String) (s : RunSt) : RunSt :=
  match getT s.tasks id with
  | none => { s with tasks := update_task_progress s.tasks id p msg }
  | some t =>
    { s with tasks := update_task_progress s.tasks id p msg,
             snaps := s.snaps ++ [{ t with progress := p, message := msg }] }

/-- One `stop_event.is_set()` read: consume the next value of the oracle. -/
def readStop (env : Env) (s : RunSt) : RunSt × Bool :=
  ({ s with checks := s.checks + 1 }, env.stop s.checks)

/-- `check_cancel` closure in `analysis_task_runner.run_analysis_task`: if the
stop event is set, mark the record CANCELLED (message, completed_at) and
report `True`. -/
def check_cancel (env : Env) (id : String) (s : RunSt) : RunSt × Bool :=
  let (s, b) := readStop env s
  if b then
    match getT s.tasks id with
    | none => (s, true)
    | some t =>
      (writeRec id
        { t with
            status := .cancelled, message := "任务已取消",
            completed_at := some env.now } s, true)
  else (s, false)

/-- `analysis_task_runner.get_latest_trade_date_and_setup`: mark RUNNING,
report progress 0.0 and 0.02, then either succeed or — on a fetch error —
mark FAILED with a message and `completed_at` (note: `error` is not set on
this path).  Returns the `has_error` flag. -/
def get_latest_trade_date_and_setup (env : Env) (id : String) (s : RunSt) :
    RunSt × Bool :=
  match getT s.tasks id with
  | none => (s, true)
  | some t =>
    let s := writeRec id { t with status := .running } s
    let s := updP id 0.0 "开始分析任务" s
    let s := updP id 0.02 "获取最新交易日和涨停数据" s
    match env.setupErr with
    | none => (s, false)
    | some e =>
      match getT s.tasks id with
      | none => (s, true)
      | some t2 =>
        (writeRec id
          { t2 with
              status := .failed,
              message := "无法获取最新交易日期：" ++ e,
              completed_at := some env.now } s, true)

/-- `analysis_task_runner.collect_spot_data_and_select_stocks`: progress 0.05
and 0.1, return the hot-spot codes with `has_error = False`. -/
def collect_spot_data_and_select_stocks (env : Env) (id : String) (s : RunSt) :
    RunSt × List String × Bool :=
  let s := updP id 0.05 ("获取实时行情数据 " ++ env.dateStr) s
  let s := updP id 0.1 "保存股票基本信息" s
  (s, env.hotCodes, false)

/-- `analysis_task_runner.check_and_upsert_spot_data`: progress 0.18, then the
DB-driven decision (oracle), then progress 0.2 with the matching message. -/
def check_and_upsert_spot_data (env : Env) (id : String) (s : RunSt) :
    RunSt × Bool :=
  let s := updP id 0.18 "检查是否需要更新当日K线数据" s
  if env.shouldUpsert then
    (updP id 0.2 "保存当日实时数据为K线数据" s, true)
  else
    (updP id 0.2 "跳过spot数据upsert，将通过fetch_history获取数据" s, false)

/-- `analysis_task_runner.get_stocks_from_database`: progress 0.15, then
either returns codes or raises (the exception propagates to the wrapper). -/
def get_stocks_from_database (env : Env) (id : String) (s : RunSt) :
    RunSt × Except String (List String) :=
  (updP id 0.15 "使用历史数据进行分析（跳过热点数据采集）" s, env.dbStocks)

/-- The per-item loop of `fetch_and_save_historical_data`: before each item
read the stop event (returning early with the fourth component `true` when it
is set), report linear progress `0.25 + 0.1 * i / total`, then count the item
as a success or a failure; item exceptions are caught and iteration
continues. -/
def fetch_history_loop (env : Env) (id : String) (total : Nat) :
    List String → Nat → Nat → Nat → RunSt → RunSt × Nat × Nat × Bool
  | [], _, succ, fail, s => (s, succ, fail, false)
  | code :: rest, i, succ, fail, s =>
    let (s, b) := readStop env s
    if b then (s, succ, fail, true)
    else
      let p : ℚ := 0.25 + 0.1 * (i : ℚ) / (total : ℚ)
      let s := updP id p ("获取第 " ++ toString (i + 1) ++ "/" ++ toString total
        ++ " 个股票历史数据: " ++ code) s
      match env.fetchOutcome i with
      | .ok => fetch_history_loop env id total rest (i + 1) (succ + 1) fail s
      | .empty => fetch_history_loop env id total rest (i + 1) succ (fail + 1) s
      | .exn => fetch_history_loop env id total rest (i + 1) succ (fail + 1) s

/-- `analysis_task_runner.fetch_and_save_historical_data`: run the batch only
when collecting fresh data and the spot upsert did not already cover it;
returns `True` (`has_error`) when the loop was interrupted by the stop event
or when zero items succeeded. -/
def fetch_and_save_historical_data (env : Env) (id : String)
    (stock_codes : List String) (should_upsert_spot collect_latest_data : Bool)
    (s : RunSt) : RunSt × Bool :=
  if collect_latest_data then
    if !should_upsert_spot then
      let s := updP id 0.25 "从外部API分批获取历史数据" s
      let total := stock_codes.length
      match fetch_history_loop env id total stock_codes 0 0 0 s with
      | (s, _, _, true) => (s, true)
      | (s, succ, fail, false) =>
        let s := updP id 0.35 ("历史数据获取完成，成功 " ++ toString succ
          ++ " 个，失败 " ++ toString fail ++ " 个") s
        if succ = 0 then (s, true) else (s, false)
    else
      (updP id 0.35 "跳过外部API调用（已upsert当日spot数据）" s, false)
  else
    (updP id 0.35 "使用数据库中的历史数据（跳过外部API调用）" s, false)

/-- `analysis_task_runner.backfill_limit_up_data`: progress 0.45; failures of
the backfill are swallowed, so it always returns `False`. -/
def backfill_limit_up_data (id : String) (s : RunSt) : RunSt × Bool :=
  (updP id 0.45 "回填历史涨停板类型" s, false)

/-- `analysis_task_runner.calculate_weekly_monthly_data`: progress 0.5/0.6 (or
a skip message at 0.6); always returns `False`. -/
def calculate_weekly_monthly_data (id : String)
    (should_upsert_spot collect_latest_data : Bool) (s : RunSt) : RunSt × Bool :=
  if collect_latest_data then
    if !should_upsert_spot then
      let s := updP id 0.5 "计算并保存周K线数据" s
      (updP id 0.6 "计算并保存月K线数据" s, false)
    else
      (updP id 0.6 "跳过周K线和月K线计算（仅upsert了spot数据）" s, false)
  else
    (updP id 0.6 "使用现有数据，跳过周K线和月K线计算" s, false)

/-- `market_data/data_fetcher.compute_factors` called with a `task_id`: it
reports progress 0.7 on entry and 0.9 before returning (the factor
computation itself is an external collaborator). -/
def compute_factors (id : String) (s : RunSt) : RunSt :=
  let s := updP id 0.7 "计算各类因子" s
  updP id 0.9 "计算因子评分" s

/-- `analysis_task_runner.compute_factors_and_analysis`: progress 0.7 and 0.85,
the nested `compute_factors` (which is passed `task_id=task_id`), 0.95, and —
when the data is non-empty — 0.97; returns `{"data": data, "count": len(data)}`. -/
def compute_factors_and_analysis (env : Env) (id : String) (s : RunSt) :
    RunSt × ResultPayload :=
  let s := updP id 0.7 "从数据库加载数据进行因子计算" s
  let factorMsg :=
    if (env.selectedFactors.getD []).isEmpty then "计算所有因子" else "计算选定因子"
  let s := updP id 0.85 factorMsg s
  let s := compute_factors id s
  let s := updP id 0.95 "数据清理和格式化" s
  let data := env.factorData
  let s := if data.isEmpty then s else updP id 0.97 "添加板块信息和排名前缀" s
  (s, { data := data, count := data.length })

/-- `analysis_task_runner.complete_analysis_task`: mark COMPLETED with
progress 1.0, build `full_result`, store it in `ANALYSIS_RESULTS_CACHE`,
overwrite `ranking.json` (the source wraps the file write in try/except and a
failure merely leaves the old file; the successful write is modelled), and set
`LAST_COMPLETED_TASK`. -/
def complete_analysis_task (id now : String) (result : ResultPayload)
    (s : RunSt) : RunSt :=
  match getT s.tasks id with
  | none => s
  | some t =>
    let t2 :=
      { t with
          status := TaskStatus.completed, progress := 1,
          message := "分析完成，数据已保存到数据库，共 " ++ toString result.count
            ++ " 条结果",
          completed_at := some now, result := some result }
    let s := writeRec id t2 s
    let full : FullResult :=
      { task_id := id, status := t2.status.value,
        progress := t2.progress, message := t2.message,
        completed_at := t2.completed_at, created_at := t2.created_at,
        top_n := t2.top_n, selected_factors := t2.selected_factors,
        data := result.data, count := result.count, from_cache := false }
    let s := { s with cache := setT s.cache id full }
    let s := { s with rankingFile := some full }
    { s with lastCompleted := some t2 }

/-- Steps 6-9 of `run_analysis_task` (weekly/monthly data, factor analysis,
completion), split out of `run_analysis_task_model` only for readability.  The
second component is the escaped exception, `none` when the function returned
normally. -/
def run_analysis_tail (env : Env) (id : String)
    (should_upsert_spot : Bool) (s : RunSt) : RunSt × Option String :=
  let (s, hErr) :=
    calculate_weekly_monthly_data id should_upsert_spot env.collectLatestData s
  if hErr then (s, none)
  else
    match check_cancel env id s with
    | (s, true) => (s, none)
    | (s, false) =>
      let (s, result) := compute_factors_and_analysis env id s
      match check_cancel env id s with
      | (s, true) => (s, none)
      | (s, false) => (complete_analysis_task id env.now result s, none)

/-- Steps 4-5 of `run_analysis_task` (historical data batch, 0.4 update,
limit-up backfill), after the stock codes are known.  Note that
`if has_error or check_cancel(): return` short-circuits: when a stage reported
an error, `check_cancel` is not evaluated. -/
def run_analysis_rest (env : Env) (id : String) (stock_codes : List String)
    (should_upsert_spot : Bool) (s : RunSt) : RunSt × Option String :=
  match fetch_and_save_historical_data env id stock_codes should_upsert_spot
      env.collectLatestData s with
  | (s, true) => (s, none)
  | (s, false) =>
    match check_cancel env id s with
    | (s, true) => (s, none)
    | (s, false) =>
      let s := updP id 0.4 "历史数据更新完成" s
      match check_cancel env id s with
      | (s, true) => (s, none)
      | (s, false) =>
        if env.collectLatestData then
          let (s, hErr) := backfill_limit_up_data id s
          if hErr then (s, none)
          else
            match check_cancel env id s with
            | (s, true) => (s, none)
            | (s, false) => run_analysis_tail env id should_upsert_spot s
        else run_analysis_tail env id should_upsert_spot s

/-- `analysis_task_runner.run_analysis_task`: the pipeline executor.  The
second component of the result is `some e` when an exception with text `e`
escaped (only `get_stocks_from_database` raises in this model; the wrapper
catches it). -/
def run_analysis_task_model (env : Env) (id : String) (s : RunSt) :
    RunSt × Option String :=
  match get_latest_trade_date_and_setup env id s with
  | (s, true) => (s, none)
  | (s, false) =>
    match check_cancel env id s with
    | (s, true) => (s, none)
    | (s, false) =>
      if env.collectLatestData then
        let (s, hot, hErr) := collect_spot_data_and_select_stocks env id s
        let stock_codes := (hot ++ env.dragonCodes).eraseDups
        if hErr then (s, none)
        else
          match check_cancel env id s with
          | (s, true) => (s, none)
          | (s, false) =>
            let (s, should_upsert_spot) := check_and_upsert_spot_data env id s
            match check_cancel env id s with
            | (s, true) => (s, none)
            | (s, false) => run_analysis_rest env id stock_codes should_upsert_spot s
      else
        match get_stocks_from_database env id s with
        | (s, .error e) => (s, some e)
        | (s, .ok stock_codes) =>
          match check_cancel env id s with
          | (s, true) => (s, none)
          | (s, false) => run_analysis_rest env id stock_codes false s

/-- `utils.handle_task_error` lifted to `RunSt` (the source indexes `TASKS`
directly and would raise `KeyError` on an absent id; the wrapper only calls it
for the task it created, so the absent case is unreachable). -/
def handle_task_errorR (env : Env) (id : String) (e : String) (s : RunSt) :
    RunSt :=
  match getT s.tasks id with
  | none => s
  | some t =>
    writeRec id
      { t with
          status := .failed, error := some e,
          message := "分析失败: " ++ e,
          completed_at := some env.now } s

/-- `data_management/services.run_analysis_wrapper`: run the pipeline and turn
an escaped exception into a FAILED record via `handle_task_error` (the thread
and stop-event registries are popped in the `finally` block; they are not part
of `RunSt`). -/
def run_analysis_wrapper (env : Env) (id : String) (s : RunSt) : RunSt :=
  match run_analysis_task_model env id s with
  | (s, none) => s
  | (s, some e) => handle_task_errorR env id e s

/-- The record built by `data_management/services.create_analysis_task`. -/
def create_analysis_task_record (env : Env) (id : String) : Task :=
  { task_id := id, status := .pending, progress := 0,
    message := "任务已创建，等待开始", created_at := env.now,
    completed_at := none, top_n := env.topN,
    selected_factors := env.selectedFactors, result := none, error := none }

/-- A whole job: `create_analysis_task` (record, stop event, thread) followed
by the worker body `run_analysis_wrapper`, starting from an empty process
state. -/
def run_analysis_session (env : Env) (id : String) : RunSt :=
  let t0 := create_analysis_task_record env id
  run_analysis_wrapper env id
    { tasks := [(id, t0)], lastCompleted := none, cache := [],
      rankingFile := none, snaps := [t0], checks := 0 }

/-- Status of the job record in a run state. -/
def statusOf (s : RunSt) (id : String) : Option TaskStatus :=
  (getT s.tasks id).map Task.status

/-- `completed_at` of the job record in a run state. -/
def completedAtOf (s : RunSt) (id : String) : Option (Option String) :=
  (getT s.tasks id).map Task.completed_at

/-- `error` of the job record in a run state. -/
def errorOf (s : RunSt) (id : String) : Option (Option String) :=
  (getT s.tasks id).map Task.error

/-- `message` of the job record in a run state. -/
def messageOf (s : RunSt) (id : String) : Option String :=
  (getT s.tasks id).map Task.message

/-- `progress` of the job record in a run state. -/
def progressOf (s : RunSt) (id : String) : Option ℚ :=
  (getT s.tasks id).map Task.progress

/-- The successive values written to the `progress` field while the record's
status was RUNNING (read off the ghost trace). -/
def progressTrace (s : RunSt) : List ℚ :=
  (s.snaps.filter (fun t => t.status == TaskStatus.running)).map Task.progress

/-- The `TaskResult` response model of `models.py` (the `status` enum is
serialized to its string value). -/
structure TaskResultM where
  task_id : String
  status : String
  progress : ℚ
  message : String
  created_at : String
  completed_at : Option String
  top_n : Nat
  selected_factors : Option (List String)
  data : Option (List DataRec)
  count : Option Nat
  extended : Option (List DataRec) := none
  error : Option String
deriving DecidableEq, Repr

/-- The `TaskResult(...)` constructions of `api.py` (`stop_analysis`,
`get_task_status`, `list_all_tasks`): fields copied from the record, with
`data`/`count` taken from `task.result` when present. -/
def mkTaskResult (t : Task) : TaskResultM :=
  { task_id := t.task_id, status := t.status.value, progress := t.progress,
    message := t.message, created_at := t.created_at,
    completed_at := t.completed_at, top_n := t.top_n,
    selected_factors := t.selected_factors,
    data := t.result.map (fun r => r.data),
    count := t.result.map (fun r => r.count),
    extended := none, error := t.error }

/-- A raised `fastapi.HTTPException` (status code and detail). -/
structure HTTPError where
  status : Nat
  detail : String
deriving DecidableEq, Repr

/-- The state touched by `api.stop_analysis`: the `TASKS` registry and the
`TASK_STOP_EVENTS` registry (the boolean is the event's is-set state). -/
structure ApiState where
  tasks : List (String × Task)
  stopEvents : List (String × Bool)
deriving DecidableEq, Repr

/-- `api.stop_analysis`: 404 when the task does not exist, 400 when no stop
event is registered (not cancellable or already finished); otherwise set the
event, overwrite `status` to RUNNING and `message`, and return the
`TaskResult`. -/
def stop_analysis (st : ApiState) (task_id : String) :
    Except HTTPError (TaskResultM × ApiState) :=
  match getT st.tasks task_id with
  | none => .error { status := 404, detail := "Task not found" }
  | some task =>
    match getT st.stopEvents task_id with
    | none =>
      .error { status := 400, detail := "Task is not cancellable or already finished" }
    | some _ =>
      let st := { st with stopEvents := setT st.stopEvents task_id true }
      let task :=
        { task with
            status := TaskStatus.running,
            message := "已请求停止，正在清理..." }
      let st := { st with tasks := setT st.tasks task_id task }
      .ok (mkTaskResult task, st)

/-- An extended-analysis task record as kept by `task_utils.py` (statuses are
plain strings: "running" at creation, "stopping" after a stop request, and a
terminal status once completed). -/
structure ExtTask where
  task_id : String
  status : String
  message : String
deriving DecidableEq, Repr

/-- The state touched by the extended-analysis endpoints: the task registry,
`EXTENDED_ANALYSIS_STOP_EVENTS` and `EXTENDED_ANALYSIS_THREADS`. -/
structure ExtState where
  reg : List (String × ExtTask)
  stopEvents : List (String × Bool)
  threads : List String
deriving DecidableEq, Repr

/-- A status string outside the terminal set (the job is still active). -/
def nonTerminalStatus (s : String) : Bool :=
  !(s == "completed" || s == "failed" || s == "cancelled")

/-- Modelled from the spec: `task_utils.add_extended_analysis_task` (the
module `task_utils.py` is not in the source tree; only its import list is).
Creates the registry entry for a new extended-analysis job with the given
status and message, as used by `run_extended_analysis_stream`. -/
def add_extended_analysis_task (reg : List (String × ExtTask))
    (task_id status message : String) : List (String × ExtTask) :=
  setT reg task_id { task_id := task_id, status := status, message := message }

/-- Modelled from the spec: `task_utils.get_running_extended_analysis_task`
(module missing from the tree).  Per spec §4.5 the Admission Controller
queries the registry for an existing non-terminal record of the family and
returns it, or `None`. -/
def get_running_extended_analysis_task (reg : List (String × ExtTask)) :
    Option ExtTask :=
  (reg.find? (fun kv => nonTerminalStatus kv.2.status)).map (fun kv => kv.2)

/-- Modelled from the spec: `task_utils.update_extended_analysis_task`
(module missing from the tree): overwrite the record's status and/or message
when the id is registered. -/
def update_extended_analysis_task (reg : List (String × ExtTask))
    (task_id : String) (status message : Option String) :
    List (String × ExtTask) :=
  match getT reg task_id with
  | none => reg
  | some t =>
    setT reg task_id
      { t with
          status := status.getD t.status,
          message := message.getD t.message }

/-- The observable response of `api.run_extended_analysis_stream`: either the
`{"error": ...}` dict naming the in-flight job, or a started SSE stream whose
events carry the fresh `task_id`. -/
inductive SubmitExtResult where
  | alreadyRunning (message : String) (runningId : String)
  | started (taskId : String)
deriving DecidableEq, Repr

/-- `api.run_extended_analysis_stream` up to its admission decision: if a
running task exists, return the error dict naming it and change nothing;
otherwise create the registry entry (status "running"), the stop event and
the worker thread for a fresh `task_id` (the uuid is an argument here). -/
def run_extended_analysis_stream (st : ExtState) (freshId : String) :
    SubmitExtResult × ExtState :=
  match get_running_extended_analysis_task st.reg with
  | some running_task =>
    (.alreadyRunning
      ("扩展分析任务已在运行中 (任务ID: " ++ running_task.task_id ++ ")")
      running_task.task_id, st)
  | none =>
    let reg2 := add_extended_analysis_task st.reg freshId "running" "开始扩展分析"
    let st := { st with reg := reg2 }
    let st := { st with stopEvents := setT st.stopEvents freshId false }
    let st := { st with threads := st.threads ++ [freshId] }
    (.started freshId, st)

/-- `api.stop_extended_analysis`: 404 when no stop event is registered for the
id; otherwise set the event and mark the record "stopping". -/
def stop_extended_analysis (st : ExtState) (task_id : String) :
    Except HTTPError (String × ExtState) :=
  match getT st.stopEvents task_id with
  | none =>
    .error { status := 404,
             detail := "Extended analysis task not found or already finished" }
  | some _ =>
    let st := { st with stopEvents := setT st.stopEvents task_id true }
    let reg2 := update_extended_analysis_task st.reg task_id
      (some "stopping") (some "已请求停止扩展分析，正在清理...")
    let st := { st with reg := reg2 }
    .ok ("stopping", st)

/-- `api.get_latest_results`: serve `LAST_COMPLETED_TASK` when present, else
reload `ranking.json` (marking it `from_cache`), else a "no results"
message (`none` here). -/
def get_latest_results (s : RunSt) : Option TaskResultM :=
  match s.lastCompleted with
  | some t => some (mkTaskResult t)
  | none =>
    match s.rankingFile with
    | some f =>
      some { task_id := f.task_id, status := f.status, progress := f.progress,
             message := f.message, created_at := f.created_at,
             completed_at := f.completed_at, top_n := f.top_n,
             selected_factors := f.selected_factors, data := some f.data,
             count := some f.count, extended := none, error := none }
    | none => none

/-- A process restart: the `TASKS` registry, `LAST_COMPLETED_TASK`, the ghost
trace and the in-memory cache are lost; only the durable `ranking.json`
survives. -/
def simulate_restart (s : RunSt) : RunSt :=
  { tasks := [], lastCompleted := none, cache := [],
    rankingFile := s.rankingFile, snaps := [], checks := 0 }

/-- Claim check helper: one concrete task record used by witnesses. -/
def exTask : Task :=
  { task_id := "t1", status := .pending, progress := 0,
    message := "任务已创建，等待开始", created_at := "2026-01-01T00:00:00",
    top_n := 100 }

/-- A baseline oracle environment: setup succeeds, fresh data is collected,
one hot-spot stock, no dragon-tiger stocks, the DB has no current-day data
(so the batch stage runs), every fetch succeeds, the factor stage produces one
row, and the stop event is never set. -/
def envBase : Env :=
  { setupErr := none, collectLatestData := true, hotCodes := ["600000"],
    dragonCodes := [], shouldUpsert := false, dbStocks := .ok [],
    fetchOutcome := fun _ => .ok, factorData := [[("代码", "600000")]],
    selectedFactors := none, topN := 100, now := "2026-01-01T00:00:00",
    dateStr := "2026-01-01", stop := fun _ => false }

/-- C1 failing input: the stop event becomes set right before the first item
boundary of the historical-data batch stage (the first three
`stop_event.is_set()` reads are the stage-boundary checks after setup, after
stock selection and after the spot-upsert check). -/
def envStopMidBatch : Env :=
  { envBase with hotCodes := ["600000", "600001"], stop := fun i => decide (3 ≤ i) }

/-- C2 failing input: every item of the historical-data batch stage raises. -/
def envAllItemsFail : Env :=
  { envBase with fetchOutcome := fun _ => .exn }

/-- C3 counterexample input: `get_latest_trade_date_and_limit_map` raises
during setup, before the first stage. -/
def envSetupFail (m : String) : Env := { envBase with setupErr := some m }

/-- An environment whose `get_stocks_from_database` raises, exercising the
`handle_task_error` path of `run_analysis_wrapper`. -/
def envDbFail (e : String) : Env :=
  { envBase with collectLatestData := false, dbStocks := .error e }

/-- An environment for a full successful run in which the current-day spot
data is upserted, so the pipeline reaches the factor stage and completes. -/
def envFactorStage : Env := { envBase with shouldUpsert := true }

/-- C1: a job whose stop event is set before an item boundary of the
historical-data batch stage stops executing stages, but the record is never
finalized: `fetch_and_save_historical_data` returns `True` and
`if has_error or check_cancel(): return` short-circuits past `check_cancel`,
so the record stays RUNNING (progress frozen at 0.25) with `completed_at`
unset instead of being marked CANCELLED. -/
theorem cancel_mid_batch_leaves_running :
    statusOf (run_analysis_session envStopMidBatch "job") "job"
        = some TaskStatus.running ∧
      completedAtOf (run_analysis_session envStopMidBatch "job") "job"
        = some none ∧
      progressOf (run_analysis_session envStopMidBatch "job") "job"
        = some 0.25 :=
  ⟨rfl, rfl, rfl⟩

/-- C2: per-item failures are isolated and iteration continues, but in the
zero-success case the job does not end FAILED: the stage returns `True`,
`run_analysis_task` merely returns, no exception reaches
`run_analysis_wrapper`, and the record stays RUNNING with no error. -/
theorem zero_success_batch_leaves_running :
    statusOf (run_analysis_session envAllItemsFail "job") "job"
        = some TaskStatus.running ∧
      errorOf (run_analysis_session envAllItemsFail "job") "job" = some none ∧
      completedAtOf (run_analysis_session envAllItemsFail "job") "job"
        = some none ∧
      messageOf (run_analysis_session envAllItemsFail "job") "job"
        = some "历史数据获取完成，成功 0 个，失败 1 个" :=
  ⟨rfl, rfl, rfl, rfl⟩

/-- C3 counterexample: a job that fails during setup (before the first stage)
is observed in status FAILED with `error = None` — the setup path of
`get_latest_trade_date_and_setup` sets status, message and `completed_at` but
never assigns `task.error`. -/
theorem setup_failure_has_no_error_field :
    statusOf (run_analysis_session (envSetupFail "网络错误") "job") "job"
        = some TaskStatus.failed ∧
      errorOf (run_analysis_session (envSetupFail "网络错误") "job") "job"
        = some none :=
  ⟨rfl, rfl⟩

/-- C3 (amended): a job that reaches FAILED through the exception-handler path
(`run_analysis_wrapper` → `handle_task_error`) has `error` set to the
exception text and message `分析失败: <e>`; the setup-error path before the
first stage sets FAILED with message `无法获取最新交易日期：<m>` and
`completed_at`, but leaves `error` unset (`None`). -/
theorem failed_error_field_by_path (m e : String) :
    (statusOf (run_analysis_session (envSetupFail m) "job") "job"
        = some TaskStatus.failed ∧
      errorOf (run_analysis_session (envSetupFail m) "job") "job" = some none ∧
      messageOf (run_analysis_session (envSetupFail m) "job") "job"
        = some ("无法获取最新交易日期：" ++ m) ∧
      completedAtOf (run_analysis_session (envSetupFail m) "job") "job"
        = some (some "2026-01-01T00:00:00")) ∧
    (statusOf (run_analysis_session (envDbFail e) "job") "job"
        = some TaskStatus.failed ∧
      errorOf (run_analysis_session (envDbFail e) "job") "job" = some (some e) ∧
      messageOf (run_analysis_session (envDbFail e) "job") "job"
        = some ("分析失败: " ++ e)) :=
  ⟨⟨rfl, rfl, rfl, rfl⟩, rfl, rfl, rfl⟩

/-- C5: the sequence of progress values written while RUNNING is not
monotonically non-decreasing: in a successful run the runner reports 0.85
before factor computation and then `compute_factors` (called with
`task_id=task_id`) immediately reports 0.7 again, a strict decrease. -/
theorem progress_trace_not_monotone :
    progressTrace (run_analysis_session envFactorStage "job")
        = [0, 0.0, 0.02, 0.05, 0.1, 0.18, 0.2, 0.35, 0.4, 0.45, 0.6,
           0.7, 0.85, 0.7, 0.9, 0.95, 0.97] ∧
      ¬ List.Chain' (· ≤ ·)
          (progressTrace (run_analysis_session envFactorStage "job")) ∧
      statusOf (run_analysis_session envFactorStage "job") "job"
        = some TaskStatus.completed := by
  refine ⟨rfl, fun hch => ?_, rfl⟩
  rw [show progressTrace (run_analysis_session envFactorStage "job")
      = [0, 0.0, 0.02, 0.05, 0.1, 0.18, 0.2, 0.35, 0.4, 0.45, 0.6,
         0.7, 0.85, 0.7, 0.9, 0.95, 0.97] from rfl] at hch
  simp only [List.chain'_cons, List.chain'_singleton] at hch
  norm_num at hch

/-- The C6 record invariant: `progress == 1.0` exactly when COMPLETED. -/
def TaskInv (t : Task) : Prop := t.progress = 1 ↔ t.status = TaskStatus.completed

/-- Every job-record state ever observed (ghost trace) satisfies `TaskInv`. -/
def snapsInv (s : RunSt) : Prop := ∀ t ∈ s.snaps, TaskInv t

/-- The job's current record is strictly below 1.0 and not COMPLETED (holds at
every point of a run before `complete_analysis_task`). -/
def recOk (id : String) (s : RunSt) : Prop :=
  ∀ t, getT s.tasks id = some t →
    t.progress < 1 ∧ t.status ≠ TaskStatus.completed

/-- Combined induction invariant for the pipeline. -/
def runInv (id : String) (s : RunSt) : Prop := snapsInv s ∧ recOk id s

theorem taskInv_of_lt {t : Task} (hp : t.progress < 1)
    (hs : t.status ≠ TaskStatus.completed) : TaskInv t :=
  ⟨fun he => absurd he (ne_of_lt hp), fun he => absurd he hs⟩

theorem runInv_checks (id : String) (s : RunSt) (n : Nat) (h : runInv id s) :
    runInv id { s with checks := n } := h

theorem writeRec_runInv (id : String) (t : Task) (s : RunSt)
    (h : runInv id s) (hp : t.progress < 1)
    (hs : t.status ≠ TaskStatus.completed) : runInv id (writeRec id t s) := by
  obtain ⟨hsn, _⟩ := h
  constructor
  · intro u hu
    rcases List.mem_append.mp hu with hu | hu
    · exact hsn u hu
    · rcases List.mem_singleton.mp hu with rfl
      exact taskInv_of_lt hp hs
  · intro u hu
    rw [writeRec] at hu
    simp only at hu
    rw [getT_setT_self] at hu
    cases hu
    exact ⟨hp, hs⟩

theorem writeRec_snapsInv (id : String) (t : Task) (s : RunSt)
    (h : snapsInv s) (ht : TaskInv t) : snapsInv (writeRec id t s) := by
  intro u hu
  rcases List.mem_append.mp hu with hu | hu
  · exact h u hu
  · rcases List.mem_singleton.mp hu with rfl
    exact ht

theorem updP_runInv (id : String) (p : ℚ) (msg : String) (s : RunSt)
    (hp : p < 1) (h : runInv id s) : runInv id (updP id p msg s) := by
  obtain ⟨hsn, hrec⟩ := h
  unfold updP update_task_progress
  cases hg : getT s.tasks id with
  | none => exact ⟨hsn, hrec⟩
  | some t =>
    obtain ⟨_, hne⟩ := hrec t hg
    constructor
    · intro u hu
      rcases List.mem_append.mp hu with hu | hu
      · exact hsn u hu
      · rcases List.mem_singleton.mp hu with rfl
        exact taskInv_of_lt hp hne
    · intro u hu
      simp only at hu
      rw [getT_setT_self] at hu
      cases hu
      exact ⟨hp, hne⟩

theorem check_cancel_runInv (env : Env) (id : String) (s : RunSt)
    (h : runInv id s) : runInv id (check_cancel env id s).1 := by
  unfold check_cancel readStop
  by_cases hb : env.stop s.checks
  · simp only [hb, if_true]
    cases hg : getT ({ s with checks := s.checks + 1 } : RunSt).tasks id with
    | none => exact h
    | some t =>
      obtain ⟨hlt, _⟩ := h.2 t hg
      exact writeRec_runInv _ _ _ h hlt (by simp)
  · simp only [hb, if_false]
    exact h

theorem setup_runInv (env : Env) (id : String) (s : RunSt) (h : runInv id s) :
    runInv id (get_latest_trade_date_and_setup env id s).1 := by
  unfold get_latest_trade_date_and_setup
  cases hg : getT s.tasks id with
  | none => exact h
  | some t =>
    simp only
    have hmid := updP_runInv id 0.02 "获取最新交易日和涨停数据" _ (by norm_num)
      (updP_runInv id 0.0 "开始分析任务" _ (by norm_num)
        (writeRec_runInv id { t with status := TaskStatus.running } s h
          (h.2 t hg).1 (by simp)))
    split
    · exact hmid
    · split
      · exact hmid
      · next t2 heq => exact writeRec_runInv _ _ _ hmid (hmid.2 t2 heq).1 (by simp)

theorem collect_runInv (env : Env) (id : String) (s : RunSt) (h : runInv id s) :
    runInv id (collect_spot_data_and_select_stocks env id s).1 :=
  updP_runInv _ _ _ _ (by norm_num) (updP_runInv _ _ _ _ (by norm_num) h)

theorem upsert_runInv (env : Env) (id : String) (s : RunSt) (h : runInv id s) :
    runInv id (check_and_upsert_spot_data env id s).1 := by
  unfold check_and_upsert_spot_data
  split
  · exact updP_runInv _ _ _ _ (by norm_num) (updP_runInv _ _ _ _ (by norm_num) h)
  · exact updP_runInv _ _ _ _ (by norm_num) (updP_runInv _ _ _ _ (by norm_num) h)

theorem db_stocks_runInv (env : Env) (id : String) (s : RunSt)
    (h : runInv id s) : runInv id (get_stocks_from_database env id s).1 :=
  updP_runInv _ _ _ _ (by norm_num) h

theorem backfill_runInv (id : String) (s : RunSt) (h : runInv id s) :
    runInv id (backfill_limit_up_data id s).1 :=
  updP_runInv _ _ _ _ (by norm_num) h

theorem weekly_runInv (id : String) (su cl : Bool) (s : RunSt)
    (h : runInv id s) :
    runInv id (calculate_weekly_monthly_data id su cl s).1 := by
  unfold calculate_weekly_monthly_data
  split
  · split
    · exact updP_runInv _ _ _ _ (by norm_num) (updP_runInv _ _ _ _ (by norm_num) h)
    · exact updP_runInv _ _ _ _ (by norm_num) h
  · exact updP_runInv _ _ _ _ (by norm_num) h

theorem compute_factors_runInv (id : String) (s : RunSt) (h : runInv id s) :
    runInv id (compute_factors id s) :=
  updP_runInv _ _ _ _ (by norm_num) (updP_runInv _ _ _ _ (by norm_num) h)

theorem cfa_runInv (env : Env) (id : String) (s : RunSt) (h : runInv id s) :
    runInv id (compute_factors_and_analysis env id s).1 := by
  unfold compute_factors_and_analysis
  simp only
  split
  · exact updP_runInv _ _ _ _ (by norm_num) (compute_factors_runInv id _
      (updP_runInv _ _ _ _ (by norm_num) (updP_runInv _ _ _ _ (by norm_num) h)))
  · exact updP_runInv _ _ _ _ (by norm_num) (updP_runInv _ _ _ _ (by norm_num)
      (compute_factors_runInv id _
        (updP_runInv _ _ _ _ (by norm_num) (updP_runInv _ _ _ _ (by norm_num) h))))

theorem fetch_loop_runInv (env : Env) (id : String) (total : Nat)
    (codes : List String) :
    ∀ i succ fail s, i + codes.length ≤ total → runInv id s →
      runInv id (fetch_history_loop env id total codes i succ fail s).1 := by
  induction codes with
  | nil =>
    intro i succ fail s _ h
    exact h
  | cons code rest ih =>
    intro i succ fail s hlen h
    rw [List.length_cons] at hlen
    simp only [fetch_history_loop, readStop]
    by_cases hb : env.stop s.checks = true
    · simp only [hb, if_true]
      exact h
    · simp only [hb, if_false]
      have hi : i < total := by omega
      have htotpos : (0 : ℚ) < (total : ℚ) := by
        exact_mod_cast Nat.lt_of_le_of_lt (Nat.zero_le i) hi
      have hdiv : (i : ℚ) / (total : ℚ) < 1 :=
        (div_lt_one htotpos).mpr (by exact_mod_cast hi)
      have hdiv0 : (0 : ℚ) ≤ (i : ℚ) / (total : ℚ) := by positivity
      have hp : (0.25 : ℚ) + 0.1 * (i : ℚ) / (total : ℚ) < 1 := by
        rw [mul_div_assoc]
        nlinarith [hdiv, hdiv0]
      have h2 := updP_runInv id (0.25 + 0.1 * (i : ℚ) / (total : ℚ))
        ("获取第 " ++ toString (i + 1) ++ "/" ++ toString total
          ++ " 个股票历史数据: " ++ code) { s with checks := s.checks + 1 } hp h
      cases hfo : env.fetchOutcome i with
      | ok => exact ih (i + 1) (succ + 1) fail _ (by omega) h2
      | empty => exact ih (i + 1) succ (fail + 1) _ (by omega) h2
      | exn => exact ih (i + 1) succ (fail + 1) _ (by omega) h2

theorem fetch_save_runInv (env : Env) (id : String) (codes : List String)
    (su cl : Bool) (s : RunSt) (h : runInv id s) :
    runInv id (fetch_and_save_historical_data env id codes su cl s).1 := by
  unfold fetch_and_save_historical_data
  split
  · split
    · simp only
      have hl := fetch_loop_runInv env id codes.length codes 0 0 0
        (updP id 0.25 "从外部API分批获取历史数据" s) (by omega)
        (updP_runInv _ _ _ _ (by norm_num) h)
      split
      · next s2 a b heq =>
        rw [heq] at hl
        exact hl
      · next s2 succ fail heq =>
        rw [heq] at hl
        split
        · exact updP_runInv _ _ _ _ (by norm_num) hl
        · exact updP_runInv _ _ _ _ (by norm_num) hl
    · exact updP_runInv _ _ _ _ (by norm_num) h
  · exact updP_runInv _ _ _ _ (by norm_num) h

theorem complete_snapsInv (id now : String) (res : ResultPayload) (s : RunSt)
    (h : runInv id s) : snapsInv (complete_analysis_task id now res s) := by
  unfold complete_analysis_task
  cases hg : getT s.tasks id with
  | none => exact h.1
  | some t =>
    simp only
    intro u hu
    simp only [writeRec, List.mem_append, List.mem_singleton] at hu
    rcases hu with hu | rfl
    · exact h.1 u hu
    · exact ⟨fun _ => rfl, fun _ => rfl⟩

theorem handle_snapsInv (env : Env) (id e : String) (s : RunSt)
    (h : runInv id s) : snapsInv (handle_task_errorR env id e s) := by
  unfold handle_task_errorR
  cases hg : getT s.tasks id with
  | none => exact h.1
  | some t =>
    have hw := writeRec_runInv id
      { t with
          status := TaskStatus.failed, error := some e,
          message := "分析失败: " ++ e,
          completed_at := some env.now } s h (h.2 t hg).1 (by simp)
    exact hw.1

theorem tail_out (env : Env) (id : String) (su : Bool) (s : RunSt)
    (h : runInv id s) :
    snapsInv (run_analysis_tail env id su s).1 ∧
      (run_analysis_tail env id su s).2 = none := by
  unfold run_analysis_tail
  have hcal := weekly_runInv id su env.collectLatestData s h
  split
  next s2 b heq =>
    rw [heq] at hcal
    by_cases hbb : b = true
    · rw [if_pos hbb]
      exact ⟨hcal.1, rfl⟩
    · rw [if_neg hbb]
      have hcc := check_cancel_runInv env id s2 hcal
      split
      · next s3 heq2 =>
        rw [heq2] at hcc
        exact ⟨hcc.1, rfl⟩
      · next s3 heq2 =>
        rw [heq2] at hcc
        have hcfa := cfa_runInv env id s3 hcc
        split
        next s4 res heq3 =>
          rw [heq3] at hcfa
          have hcc2 := check_cancel_runInv env id s4 hcfa
          split
          · next s5 heq4 =>
            rw [heq4] at hcc2
            exact ⟨hcc2.1, rfl⟩
          · next s5 heq4 =>
            rw [heq4] at hcc2
            exact ⟨complete_snapsInv id env.now res s5 hcc2, rfl⟩

theorem rest_out (env : Env) (id : String) (codes : List String) (su : Bool)
    (s : RunSt) (h : runInv id s) :
    snapsInv (run_analysis_rest env id codes su s).1 ∧
      (run_analysis_rest env id codes su s).2 = none := by
  unfold run_analysis_rest
  have hf := fetch_save_runInv env id codes su env.collectLatestData s h
  split
  · next s2 heq =>
    rw [heq] at hf
    exact ⟨hf.1, rfl⟩
  · next s2 heq =>
    rw [heq] at hf
    have hcc := check_cancel_runInv env id s2 hf
    split
    · next s3 heq2 =>
      rw [heq2] at hcc
      exact ⟨hcc.1, rfl⟩
    · next s3 heq2 =>
      rw [heq2] at hcc
      have h4 := updP_runInv id 0.4 "历史数据更新完成" s3 (by norm_num) hcc
      have hcc2 := check_cancel_runInv env id _ h4
      simp only
      split
      · next s5 heq3 =>
        rw [heq3] at hcc2
        exact ⟨hcc2.1, rfl⟩
      · next s5 heq3 =>
        rw [heq3] at hcc2
        by_cases hcl : env.collectLatestData = true
        · rw [if_pos hcl]
          have hb := backfill_runInv id s5 hcc2
          rw [if_neg (by simp [backfill_limit_up_data] :
            ¬ (backfill_limit_up_data id s5).2 = true)]
          have hcc3 := check_cancel_runInv env id
            (backfill_limit_up_data id s5).1 hb
          split
          · next s7 heq5 =>
            rw [heq5] at hcc3
            exact ⟨hcc3.1, rfl⟩
          · next s7 heq5 =>
            rw [heq5] at hcc3
            exact tail_out env id su s7 hcc3
        · rw [if_neg hcl]
          exact tail_out env id su s5 hcc2

theorem model_out (env : Env) (id : String) (s : RunSt) (h : runInv id s) :
    snapsInv (run_analysis_task_model env id s).1 ∧
      (∀ e, (run_analysis_task_model env id s).2 = some e →
        runInv id (run_analysis_task_model env id s).1) := by
  unfold run_analysis_task_model
  have hs := setup_runInv env id s h
  split
  · next s2 heq =>
    rw [heq] at hs
    exact ⟨hs.1, fun e he => hs⟩
  · next s2 heq =>
    rw [heq] at hs
    have hcc := check_cancel_runInv env id s2 hs
    split
    · next s3 heq2 =>
      rw [heq2] at hcc
      exact ⟨hcc.1, fun e he => hcc⟩
    · next s3 heq2 =>
      rw [heq2] at hcc
      by_cases hcl : env.collectLatestData = true
      · rw [if_pos hcl]
        have hco := collect_runInv env id s3 hcc
        split
        next s4 hot hErr heq3 =>
          rw [heq3] at hco
          by_cases hee : hErr = true
          · rw [if_pos hee]
            exact ⟨hco.1, fun e he => hco⟩
          · rw [if_neg hee]
            have hcc2 := check_cancel_runInv env id s4 hco
            split
            · next s5 heq4 =>
              rw [heq4] at hcc2
              exact ⟨hcc2.1, fun e he => hcc2⟩
            · next s5 heq4 =>
              rw [heq4] at hcc2
              have hup := upsert_runInv env id s5 hcc2
              split
              next s6 su heq5 =>
                rw [heq5] at hup
                have hcc3 := check_cancel_runInv env id s6 hup
                split
                · next s7 heq6 =>
                  rw [heq6] at hcc3
                  exact ⟨hcc3.1, fun e he => hcc3⟩
                · next s7 heq6 =>
                  rw [heq6] at hcc3
                  have hrest := rest_out env id
                    ((hot ++ env.dragonCodes).eraseDups) su s7 hcc3
                  exact ⟨hrest.1, fun e he => absurd (hrest.2 ▸ he) (by simp)⟩
      · rw [if_neg hcl]
        have hdb := db_stocks_runInv env id s3 hcc
        split
        · next s4 e heq3 =>
          rw [heq3] at hdb
          exact ⟨hdb.1, fun e2 he2 => hdb⟩
        · next s4 codes heq3 =>
          rw [heq3] at hdb
          have hcc2 := check_cancel_runInv env id s4 hdb
          split
          · next s5 heq4 =>
            rw [heq4] at hcc2
            exact ⟨hcc2.1, fun e he => hcc2⟩
          · next s5 heq4 =>
            rw [heq4] at hcc2
            have hrest := rest_out env id codes false s5 hcc2
            exact ⟨hrest.1, fun e he => absurd (hrest.2 ▸ he) (by simp)⟩

theorem wrapper_snapsInv (env : Env) (id : String) (s : RunSt)
    (h : runInv id s) : snapsInv (run_analysis_wrapper env id s) := by
  unfold run_analysis_wrapper
  have hm := model_out env id s h
  split
  · next s2 heq =>
    rw [heq] at hm
    exact hm.1
  · next s2 e heq =>
    rw [heq] at hm
    exact handle_snapsInv env id e s2 (hm.2 e rfl)

/-- C6: along every reachable execution of a job — submission, the progress
updates of every stage, failure, cancellation and completion — every observed
state of the job record satisfies `progress == 1.0` iff
`status == COMPLETED`. -/
theorem analysis_progress_one_iff_completed (env : Env) (id : String) :
    ∀ t ∈ (run_analysis_session env id).snaps,
      (t.progress = 1 ↔ t.status = TaskStatus.completed) := by
  have hInv : TaskInv (create_analysis_task_record env id) := by
    constructor
    · intro hp
      exact absurd hp (by norm_num [create_analysis_task_record])
    · intro hs
      exact absurd hs (by simp [create_analysis_task_record])
  have h0 : runInv id
      { tasks := [(id, create_analysis_task_record env id)],
        lastCompleted := none, cache := [], rankingFile := none,
        snaps := [create_analysis_task_record env id], checks := 0 } := by
    constructor
    · intro u hu
      rcases List.mem_singleton.mp hu with rfl
      exact hInv
    · intro u hu
      simp only [getT, if_pos rfl] at hu
      cases hu
      constructor
      · norm_num [create_analysis_task_record]
      · simp [create_analysis_task_record]
  exact wrapper_snapsInv env id _ h0

/-- Witness for C6: the invariant instantiated at the first observed record of
a concrete run. -/
theorem analysis_progress_one_iff_completed_witness :
    (create_analysis_task_record envBase "job").progress = 1 ↔
      (create_analysis_task_record envBase "job").status
        = TaskStatus.completed :=
  analysis_progress_one_iff_completed envBase "job"
    (create_analysis_task_record envBase "job") (List.mem_cons_self _ _)

theorem find?_setT_of_none {α : Type} {p : String × α → Bool}
    (m : List (String × α)) (k : String) (v : α)
    (hm : ∀ x ∈ m, ¬ p x) (hv : p (k, v)) :
    (setT m k v).find? p = some (k, v) := by
  induction m with
  | nil => simp [setT, List.find?, hv]
  | cons hd tl ih =>
    obtain ⟨k₂, v₂⟩ := hd
    have hhd : ¬ p (k₂, v₂) := hm _ (List.mem_cons_self _ _)
    have htl : ∀ x ∈ tl, ¬ p x := fun x hx => hm x (List.mem_cons_of_mem _ hx)
    by_cases h : k₂ = k
    · subst h
      simp [setT, List.find?, hv]
    · simp only [setT, if_neg h, List.find?]
      rw [Bool.eq_false_iff.mpr hhd]
      exact ih htl

/-- C10: when the job exists and a stop event is registered, `stop_analysis`
sets the event and mutates the record itself: it unconditionally overwrites
`status` to RUNNING (even from PENDING) and overwrites `message`, while
`progress`, `result`, `error`, `created_at` and `completed_at` are left
unchanged. -/
theorem stop_analysis_frame (st : ApiState) (id : String) (t : Task) (b : Bool)
    (h1 : getT st.tasks id = some t) (h2 : getT st.stopEvents id = some b) :
    stop_analysis st id =
        .ok (mkTaskResult
              { t with
                  status := TaskStatus.running,
                  message := "已请求停止，正在清理..." },
             { tasks := setT st.tasks id
                 { t with
                     status := TaskStatus.running,
                     message := "已请求停止，正在清理..." },
               stopEvents := setT st.stopEvents id true }) ∧
      getT (setT st.stopEvents id true) id = some true ∧
      ({ t with
           status := TaskStatus.running,
           message := "已请求停止，正在清理..." } : Task).progress = t.progress ∧
      ({ t with
           status := TaskStatus.running,
           message := "已请求停止，正在清理..." } : Task).result = t.result ∧
      ({ t with
           status := TaskStatus.running,
           message := "已请求停止，正在清理..." } : Task).error = t.error ∧
      ({ t with
           status := TaskStatus.running,
           message := "已请求停止，正在清理..." } : Task).created_at = t.created_at ∧
      ({ t with
           status := TaskStatus.running,
           message := "已请求停止，正在清理..." } : Task).completed_at
        = t.completed_at := by
  unfold stop_analysis
  rw [h1, h2]
  exact ⟨rfl, getT_setT_self st.stopEvents id true, rfl, rfl, rfl, rfl, rfl⟩

/-- Witness for C10: stopping a concrete PENDING job with a registered event. -/
theorem stop_analysis_frame_witness :
    stop_analysis ⟨[("t1", exTask)], [("t1", false)]⟩ "t1" =
        .ok (mkTaskResult
              { exTask with
                  status := TaskStatus.running,
                  message := "已请求停止，正在清理..." },
             { tasks := setT [("t1", exTask)] "t1"
                 { exTask with
                     status := TaskStatus.running,
                     message := "已请求停止，正在清理..." },
               stopEvents := setT [("t1", false)] "t1" true }) ∧
      getT (setT [("t1", false)] "t1" true) "t1" = some true ∧
      ({ exTask with
           status := TaskStatus.running,
           message := "已请求停止，正在清理..." } : Task).progress = exTask.progress ∧
      ({ exTask with
           status := TaskStatus.running,
           message := "已请求停止，正在清理..." } : Task).result = exTask.result ∧
      ({ exTask with
           status := TaskStatus.running,
           message := "已请求停止，正在清理..." } : Task).error = exTask.error ∧
      ({ exTask with
           status := TaskStatus.running,
           message := "已请求停止，正在清理..." } : Task).created_at
        = exTask.created_at ∧
      ({ exTask with
           status := TaskStatus.running,
           message := "已请求停止，正在清理..." } : Task).completed_at
        = exTask.completed_at :=
  stop_analysis_frame ⟨[("t1", exTask)], [("t1", false)]⟩ "t1" exTask false rfl rfl

/-- C4 counterexample: stopping a job id that never existed does not return a
normal `accepted=false` response — `stop_analysis` raises HTTP 404, and
`stop_extended_analysis` raises HTTP 404 as well. -/
theorem stop_on_absent_job_raises :
    stop_analysis ⟨[], []⟩ "x"
        = .error { status := 404, detail := "Task not found" } ∧
      stop_extended_analysis ⟨[], [], []⟩ "x"
        = .error { status := 404,
                   detail := "Extended analysis task not found or already finished" } :=
  ⟨rfl, rfl⟩

/-- C4 (amended): the stop operation sets the cancellation token when one is
registered for the id; but for a job that never existed it raises HTTP 404,
and for a job without a registered token (already finished) it raises HTTP
400 (`stop_analysis`) resp. HTTP 404 (`stop_extended_analysis`) — an error
response, not a normal `accepted=false` reply. -/
theorem request_stop_spec (st : ApiState) (est : ExtState) (id : String) :
    (getT st.tasks id = none →
      stop_analysis st id
        = .error { status := 404, detail := "Task not found" }) ∧
    (∀ t, getT st.tasks id = some t → getT st.stopEvents id = none →
      stop_analysis st id
        = .error { status := 400,
                   detail := "Task is not cancellable or already finished" }) ∧
    (∀ t b, getT st.tasks id = some t → getT st.stopEvents id = some b →
      ∃ r st2, stop_analysis st id = .ok (r, st2) ∧
        getT st2.stopEvents id = some true) ∧
    (getT est.stopEvents id = none →
      stop_extended_analysis est id
        = .error { status := 404,
                   detail := "Extended analysis task not found or already finished" }) ∧
    (∀ b, getT est.stopEvents id = some b →
      ∃ r est2, stop_extended_analysis est id = .ok (r, est2) ∧
        getT est2.stopEvents id = some true) := by
  refine ⟨fun h => ?_, fun t ht he => ?_, fun t b ht hb => ?_,
    fun h => ?_, fun b hb => ?_⟩
  · unfold stop_analysis
    rw [h]
  · unfold stop_analysis
    rw [ht, he]
  · unfold stop_analysis
    rw [ht, hb]
    exact ⟨_, _, rfl, getT_setT_self st.stopEvents id true⟩
  · unfold stop_extended_analysis
    rw [h]
  · unfold stop_extended_analysis
    rw [hb]
    exact ⟨_, _, rfl, getT_setT_self est.stopEvents id true⟩

/-- Witness for C4 (amended): the token-setting clause at a concrete state. -/
theorem request_stop_spec_witness :
    ∃ r st2,
      stop_analysis ⟨[("t1", exTask)], [("t1", false)]⟩ "t1" = .ok (r, st2) ∧
        getT st2.stopEvents "t1" = some true :=
  (request_stop_spec ⟨[("t1", exTask)], [("t1", false)]⟩ ⟨[], [], []⟩
    "t1").2.2.1 exTask false rfl rfl

/-- C7: the extended-analysis family is a singleton: while a non-terminal
instance exists, submitting again creates no new record, stop event or thread
— the state is returned unchanged and the response carries the in-flight
job's id.  Hence two submissions during one active run both yield the first
submission's id. -/
theorem extended_analysis_singleton (st : ExtState) (r : ExtTask)
    (id1 id2 : String) :
    (get_running_extended_analysis_task st.reg = some r →
      run_extended_analysis_stream st id1 =
        (.alreadyRunning
          ("扩展分析任务已在运行中 (任务ID: " ++ r.task_id ++ ")") r.task_id,
         st)) ∧
    (get_running_extended_analysis_task st.reg = none →
      (run_extended_analysis_stream st id1).1 = .started id1 ∧
      run_extended_analysis_stream (run_extended_analysis_stream st id1).2 id2
        = (.alreadyRunning
            ("扩展分析任务已在运行中 (任务ID: " ++ id1 ++ ")") id1,
           (run_extended_analysis_stream st id1).2)) := by
  constructor
  · intro h
    unfold run_extended_analysis_stream
    rw [h]
  · intro h
    have hfind : st.reg.find? (fun kv => nonTerminalStatus kv.2.status) = none := by
      unfold get_running_extended_analysis_task at h
      exact Option.map_eq_none.mp h
    have hall : ∀ x ∈ st.reg, ¬ (fun kv => nonTerminalStatus kv.2.status) x =
        true := by
      intro x hx
      have := List.find?_eq_none.mp hfind x hx
      simpa using this
    have hstep : run_extended_analysis_stream st id1 =
        (.started id1,
         { reg := add_extended_analysis_task st.reg id1 "running" "开始扩展分析",
           stopEvents := setT st.stopEvents id1 false,
           threads := st.threads ++ [id1] }) := by
      unfold run_extended_analysis_stream
      rw [h]
    refine ⟨by rw [hstep], ?_⟩
    rw [hstep]
    have hrun2 : get_running_extended_analysis_task
        (add_extended_analysis_task st.reg id1 "running" "开始扩展分析")
        = some { task_id := id1, status := "running", message := "开始扩展分析" } := by
      unfold get_running_extended_analysis_task add_extended_analysis_task
      rw [find?_setT_of_none st.reg id1
        { task_id := id1, status := "running", message := "开始扩展分析" } hall rfl]
      rfl
    unfold run_extended_analysis_stream
    rw [hrun2]

/-- Witness for C7: two submissions against an empty registry. -/
theorem extended_analysis_singleton_witness :
    (run_extended_analysis_stream (⟨[], [], []⟩ : ExtState) "id1").1
        = .started "id1" ∧
      run_extended_analysis_stream
          (run_extended_analysis_stream (⟨[], [], []⟩ : ExtState) "id1").2 "id2"
        = (.alreadyRunning
            ("扩展分析任务已在运行中 (任务ID: " ++ "id1" ++ ")") "id1",
           (run_extended_analysis_stream (⟨[], [], []⟩ : ExtState) "id1").2) :=
  (extended_analysis_singleton ⟨[], [], []⟩
    { task_id := "x", status := "running", message := "" } "id1" "id2").2 rfl

/-- C8: completing a job writes `full_result` (with `from_cache = False`) both
to the in-memory cache and to `ranking.json`; after a restart that empties the
in-memory registry, `get_latest_results` reloads the file and reproduces the
same payload fields (data, count, task_id, timestamps, parameters, status,
progress, message). -/
theorem ranking_roundtrip (s : RunSt) (id now : String) (res : ResultPayload)
    (t : Task) (h : getT s.tasks id = some t) :
    ∃ full r,
      getT (complete_analysis_task id now res s).cache id = some full ∧
      (complete_analysis_task id now res s).rankingFile = some full ∧
      full.from_cache = false ∧
      get_latest_results (simulate_restart (complete_analysis_task id now res s))
        = some r ∧
      r.task_id = full.task_id ∧ r.data = some full.data ∧
      r.count = some full.count ∧ r.created_at = full.created_at ∧
      r.completed_at = full.completed_at ∧ r.top_n = full.top_n ∧
      r.selected_factors = full.selected_factors ∧ r.status = full.status ∧
      r.progress = full.progress ∧ r.message = full.message := by
  unfold complete_analysis_task
  rw [h]
  exact ⟨_, _, getT_setT_self s.cache id _, rfl, rfl, rfl, rfl, rfl, rfl, rfl,
    rfl, rfl, rfl, rfl, rfl, rfl⟩

/-- Witness for C8 at a concrete pre-completion state and payload. -/
theorem ranking_roundtrip_witness :
    ∃ full r,
      getT (complete_analysis_task "t1" "2026-01-01T01:00:00"
          { data := [[("代码", "600000")]], count := 1 }
          { tasks := [("t1", exTask)] }).cache "t1" = some full ∧
      (complete_analysis_task "t1" "2026-01-01T01:00:00"
          { data := [[("代码", "600000")]], count := 1 }
          { tasks := [("t1", exTask)] }).rankingFile = some full ∧
      full.from_cache = false ∧
      get_latest_results (simulate_restart (complete_analysis_task "t1"
          "2026-01-01T01:00:00" { data := [[("代码", "600000")]], count := 1 }
          { tasks := [("t1", exTask)] })) = some r ∧
      r.task_id = full.task_id ∧ r.data = some full.data ∧
      r.count = some full.count ∧ r.created_at = full.created_at ∧
      r.completed_at = full.completed_at ∧ r.top_n = full.top_n ∧
      r.selected_factors = full.selected_factors ∧ r.status = full.status ∧
      r.progress = full.progress ∧ r.message = full.message :=
  ranking_roundtrip { tasks := [("t1", exTask)] } "t1" "2026-01-01T01:00:00"
    { data := [[("代码", "600000")]], count := 1 } exTask rfl

/-- C9: For every job id absent from the job registry, `update_task_progress`
(and its concept-task sibling) is a no-op: it raises no error and returns the
registry — hence every existing record — unchanged. -/
theorem updateProgress_absent_id_noop (tasks : List (String × Task))
    (ctasks : List (String × ConceptTask)) (task_id : String) (p : ℚ) (m : String)
    (h1 : getT tasks task_id = none) (h2 : getT ctasks task_id = none) :
    update_task_progress tasks task_id p m = tasks ∧
      update_concept_task_progress ctasks task_id p m = ctasks := by
  constructor
  · unfold update_task_progress
    rw [h1]
  · unfold update_concept_task_progress
    rw [h2]

/-- Witness for C9 at a concrete registry and id. -/
theorem updateProgress_absent_id_noop_witness :
    update_task_progress [("t1", exTask)] "t2" (1/2) "x" = [("t1", exTask)] ∧
      update_concept_task_progress [] "t2" (1/2) "x" = [] :=
  updateProgress_absent_id_noop [("t1", exTask)] [] "t2" (1/2) "x"
    (by decide) (by decide)

end KFilter
